import Mathlib

/-!
Verification of the HTTP log-format module (`src/es/index.js`).

The module normalizes request/response objects into canonical log records,
filters header maps through an allow/deny policy (lodash `pick`/`omit`),
and renders one-line string summaries.

Modelling conventions:
* a JS object's optional field is an `Option`; `null`/`undefined` arguments
  are `none`;
* a header map is an association list `List (String × String)` (JS object
  property order is kept by the list order; the claims below are stated at
  the key/value level, where order does not matter);
* JS template-string interpolation of an absent value renders `"undefined"`;
* code that can throw is embedded in `Except JsError`; a JS `TypeError`
  (the `InvalidArgument` kind of error) is `JsError.typeError`.
-/

/-- A JS `TypeError` — the invalid-argument error kind: the only error the
module can raise (property destructuring of `null`/`undefined`). -/
inductive JsError where
  | typeError
deriving Repr, DecidableEq

/-- A value that may appear as an element of an `allowHeaders`/`denyHeaders`
list: intended to be a string, but JS lets callers pass e.g. numbers. -/
inductive JsVal where
  | str (s : String)
  | num (n : Nat)
deriving Repr, DecidableEq

/-- lodash `toKey`: a string path element is used as is; any other element is
coerced with `String(...)` (never an error). -/
def toKey : JsVal → String
  | .str s => s
  | .num n => toString n

/-- JS template-string rendering of a possibly-absent string value:
`undefined` renders as the literal text `"undefined"`. -/
def jsToString : Option String → String
  | some s => s
  | none => "undefined"

/-- JS template-string rendering of a possibly-absent number. -/
def jsNumToString : Option Nat → String
  | some n => toString n
  | none => "undefined"

/-- JS `a || b` for string-valued fields: `undefined` and the empty string
are falsy, any other string is truthy. -/
def jsOrString (a b : Option String) : Option String :=
  match a with
  | some s => if s = "" then b else some s
  | none => b

/-- JS `a || b` for object-valued fields: any present object is truthy. -/
def jsOrOpt {α : Type} (a b : Option α) : Option α :=
  match a with
  | some x => some x
  | none => b

/-- A header map: JS object mapping header name (case-sensitive) to value. -/
abbrev HeaderMap : Type := List (String × String)

/-- The key set (as a list) of a header map. -/
def HeaderMap.keys (h : HeaderMap) : List String :=
  h.map (·.1)

/-- First-match property read, as JS `headers[k]` / `headers.k`. -/
def HeaderMap.get? (h : HeaderMap) (k : String) : Option String :=
  List.lookup k h

/-- lodash `pick(headers, ks)`: the sub-object of `headers` at the keys in
`ks`; keys of `ks` absent from `headers` are silently skipped. -/
def pick (headers : HeaderMap) (ks : List String) : HeaderMap :=
  List.filter (fun kv => ks.contains kv.1) headers

/-- lodash `omit(headers, ks)`: a copy of `headers` without the keys in
`ks`; keys of `ks` absent from `headers` are ignored. -/
def omitKeys (headers : HeaderMap) (ks : List String) : HeaderMap :=
  List.filter (fun kv => !ks.contains kv.1) headers

/-- The key list lodash `omit` removes for a given `paths` argument: a
present list has each element coerced by `toKey`; an `undefined` argument
is flattened to the single path `undefined` (`castPath`/`isKey` accept
it), which `toKey` coerces to the key `"undefined"` — so `omit(obj,
undefined)` deletes the key literally named `"undefined"`. -/
def omitPaths : Option (List JsVal) → List String
  | some ks => ks.map toKey
  | none => ["undefined"]

/-- The options object destructured as `{ whitelistHeaders, blacklistHeaders }`:
both fields optional. -/
structure Options where
  whitelistHeaders : Option (List JsVal) := none
  blacklistHeaders : Option (List JsVal) := none
deriving Repr, DecidableEq

/-- `filterHeaders(headers, { whitelistHeaders, blacklistHeaders })`:
`whitelistHeaders ? pick(headers, whitelistHeaders) : headers`, then —
unconditionally — `omit(..., blacklistHeaders)`. lodash coerces every
path element with `toKey`; an undefined `blacklistHeaders` passed to
`omit` behaves as the one-path list `[undefined]`, i.e. removes the key
literally named `"undefined"` (see `omitPaths`). -/
def filterHeaders (headers : HeaderMap) (opts : Options) : HeaderMap :=
  let whitelistedHeaders := match opts.whitelistHeaders with
    | some ks => pick headers (ks.map toKey)
    | none => headers
  let blacklistedHeaders :=
    omitKeys whitelistedHeaders (omitPaths opts.blacklistHeaders)
  blacklistedHeaders

/-- `filterHeaders` in the exception-aware embedding: lodash `pick`/`omit`
raise nothing for any path-element value (non-strings are coerced by
`toKey`), so the call always succeeds. -/
def filterHeadersE (headers : HeaderMap) (opts : Options) :
    Except JsError HeaderMap :=
  .ok (filterHeaders headers opts)

/-! ### Object-store embedding of `filterHeaders`

To state the no-mutation claim, header-map objects live in an explicit
store (`Store`), addressed by references (list indices). lodash `pick` and
`omit` each allocate a fresh result object and only read their input. -/

/-- The store of header-map objects; a reference is an index into it. -/
abbrev Store : Type := List HeaderMap

/-- Reads the object at reference `r` (an absent reference reads as `[]`). -/
def Store.read (s : Store) (r : Nat) : HeaderMap :=
  List.getD s r []

/-- `pick` on the store: reads the input object, allocates the picked copy
at a fresh reference. -/
def pickS (s : Store) (r : Nat) (ks : List String) : Store × Nat :=
  (s ++ [pick (s.read r) ks], s.length)

/-- `omit` on the store: reads the input object, allocates the filtered
copy at a fresh reference; `ks` is the already-coerced key list
(`omitPaths` of the `paths` argument), so `omit` copies and deletes only
on the copy even when its `paths` argument was `undefined`. -/
def omitS (s : Store) (r : Nat) (ks : List String) : Store × Nat :=
  (s ++ [omitKeys (s.read r) ks], s.length)

/-- `filterHeaders` on the store: `pick` (when a whitelist is present) then
`omit`, each allocating a fresh object; no existing object is written. -/
def filterHeadersS (s : Store) (r : Nat) (opts : Options) : Store × Nat :=
  let step1 := match opts.whitelistHeaders with
    | some ks => pickS s r (ks.map toKey)
    | none => (s, r)
  omitS step1.1 step1.2 (omitPaths opts.blacklistHeaders)

/-! ### Request and response normalization -/

/-- The `socket`-like object of a request: each connection field optional. -/
structure SocketLike where
  remoteAddress : Option String := none
  remotePort : Option Nat := none
  localAddress : Option String := none
  localPort : Option Nat := none
deriving Repr, DecidableEq

/-- A request-like input object (`http.IncomingMessage` or
`http.ClientRequest`): every field a subset capability. `_headers` is the
internal raw-headers field of a `ClientRequest`. -/
structure RequestLike where
  httpVersion : Option String := none
  method : Option String := none
  timestamp : Option Nat := none
  url : Option String := none
  path : Option String := none
  headers : Option HeaderMap := none
  _headers : Option HeaderMap := none
  socket : Option SocketLike := none
deriving Repr, DecidableEq

/-- The canonical request record returned by `formatRequest`. -/
structure RequestRecord where
  timestamp : Option Nat
  httpVersion : Option String
  method : Option String
  url : Option String
  headers : HeaderMap
  remoteAddress : Option String
  remotePort : Option Nat
  localAddress : Option String
  localPort : Option Nat
deriving Repr, DecidableEq

/-- `formatRequest(request, { whitelistHeaders, blacklistHeaders })` on an
object-like request: `url = request.url || request.path`;
`receivedHeaders = request.headers || request._headers || {}` filtered
through `filterHeaders`; `socket = request.socket || {}`. -/
def formatRequest (request : RequestLike) (opts : Options) : RequestRecord :=
  let url := jsOrString request.url request.path
  let receivedHeaders := (jsOrOpt request.headers request._headers).getD []
  let headers := filterHeaders receivedHeaders opts
  let socket := request.socket.getD {}
  { timestamp := request.timestamp
    httpVersion := request.httpVersion
    method := request.method
    url := url
    headers := headers
    remoteAddress := socket.remoteAddress
    remotePort := socket.remotePort
    localAddress := socket.localAddress
    localPort := socket.localPort }

/-- `formatRequest` on a possibly-`null`/`undefined` request argument:
destructuring `const { httpVersion, method } = request` on a non-object
throws a `TypeError` (the invalid-argument kind) before any record is
built. -/
def formatRequestE (request : Option RequestLike) (opts : Options) :
    Except JsError RequestRecord :=
  match request with
  | none => .error .typeError
  | some r => .ok (formatRequest r opts)

/-- A response-like input object. `parsedRawHeaders` stands for the result
of the external raw-header-parsing collaborator. Modelled from the spec:
the collaborator `httpHeaders(response, true)` is not part of this
repository; per the spec it yields "a HeaderMap or a falsy value if none
can be derived" from the response object. -/
structure ResponseLike where
  statusCode : Option Nat := none
  headers : Option HeaderMap := none
  parsedRawHeaders : Option HeaderMap := none
  timestamp : Option Nat := none
  responseTime : Option Nat := none
deriving Repr, DecidableEq

/-- The canonical response record returned by `formatResponse`. -/
structure ResponseRecord where
  timestamp : Option Nat
  statusCode : Option Nat
  headers : HeaderMap
  responseTime : Option Nat
deriving Repr, DecidableEq

/-- `formatResponse(response, { whitelistHeaders, blacklistHeaders })`:
`receivedHeaders = response.headers || httpHeaders(response, true) || {}`
filtered through `filterHeaders`; `statusCode`, `timestamp`,
`responseTime` read directly. -/
def formatResponse (response : ResponseLike) (opts : Options) :
    ResponseRecord :=
  let receivedHeaders :=
    (jsOrOpt response.headers response.parsedRawHeaders).getD []
  { timestamp := response.timestamp
    statusCode := response.statusCode
    headers := filterHeaders receivedHeaders opts
    responseTime := response.responseTime }

/-- `formatResponse` on a possibly-`null`/`undefined` response argument:
reading `response.statusCode` on a non-object throws a `TypeError` (the
invalid-argument kind) before any record is built. -/
def formatResponseE (response : Option ResponseLike) (opts : Options) :
    Except JsError ResponseRecord :=
  match response with
  | none => .error .typeError
  | some r => .ok (formatResponse r opts)

/-! ### Stringifiers -/

/-- `stringifyRequest(request)`: destructures `{ method, url, headers = {} }`
(the default applies only when `headers` is `undefined`) and renders the
template string `` `${method} ${headers.host}${url}` ``; no filtering. -/
def stringifyRequest (request : RequestLike) : String :=
  let headers := request.headers.getD []
  jsToString request.method ++ " " ++ jsToString (headers.get? "host")
    ++ jsToString request.url

/-- Modelled from the spec: the external status-code-to-reason-phrase
registry (Node's `http.STATUS_CODES`), "an external static mapping from
integer status code to canonical reason phrase (e.g., 201 → Created)".
Codes outside the registry map to `none`. -/
def STATUS_CODES : Nat → Option String
  | 100 => some "Continue"
  | 101 => some "Switching Protocols"
  | 102 => some "Processing"
  | 103 => some "Early Hints"
  | 200 => some "OK"
  | 201 => some "Created"
  | 202 => some "Accepted"
  | 203 => some "Non-Authoritative Information"
  | 204 => some "No Content"
  | 205 => some "Reset Content"
  | 206 => some "Partial Content"
  | 207 => some "Multi-Status"
  | 208 => some "Already Reported"
  | 226 => some "IM Used"
  | 300 => some "Multiple Choices"
  | 301 => some "Moved Permanently"
  | 302 => some "Found"
  | 303 => some "See Other"
  | 304 => some "Not Modified"
  | 305 => some "Use Proxy"
  | 307 => some "Temporary Redirect"
  | 308 => some "Permanent Redirect"
  | 400 => some "Bad Request"
  | 401 => some "Unauthorized"
  | 402 => some "Payment Required"
  | 403 => some "Forbidden"
  | 404 => some "Not Found"
  | 405 => some "Method Not Allowed"
  | 406 => some "Not Acceptable"
  | 407 => some "Proxy Authentication Required"
  | 408 => some "Request Timeout"
  | 409 => some "Conflict"
  | 410 => some "Gone"
  | 411 => some "Length Required"
  | 412 => some "Precondition Failed"
  | 413 => some "Payload Too Large"
  | 414 => some "URI Too Long"
  | 415 => some "Unsupported Media Type"
  | 416 => some "Range Not Satisfiable"
  | 417 => some "Expectation Failed"
  | 418 => some "I\x27m a Teapot"
  | 421 => some "Misdirected Request"
  | 422 => some "Unprocessable Entity"
  | 423 => some "Locked"
  | 424 => some "Failed Dependency"
  | 425 => some "Too Early"
  | 426 => some "Upgrade Required"
  | 428 => some "Precondition Required"
  | 429 => some "Too Many Requests"
  | 431 => some "Request Header Fields Too Large"
  | 451 => some "Unavailable For Legal Reasons"
  | 500 => some "Internal Server Error"
  | 501 => some "Not Implemented"
  | 502 => some "Bad Gateway"
  | 503 => some "Service Unavailable"
  | 504 => some "Gateway Timeout"
  | 505 => some "HTTP Version Not Supported"
  | 506 => some "Variant Also Negotiates"
  | 507 => some "Insufficient Storage"
  | 508 => some "Loop Detected"
  | 509 => some "Bandwidth Limit Exceeded"
  | 510 => some "Not Extended"
  | 511 => some "Network Authentication Required"
  | _ => none

/-- `stringifyResponse(response)`: reads `statusCode`, looks up
`http.STATUS_CODES[statusCode]` and renders the template string
`` `${statusCode} (${statusMsg})` ``; a code with no registry entry gives
`statusMsg = undefined`, which renders as the text `"undefined"`. -/
def stringifyResponse (response : ResponseLike) : String :=
  let statusCode := response.statusCode
  let statusMsg := statusCode.bind STATUS_CODES
  jsNumToString statusCode ++ " (" ++ jsToString statusMsg ++ ")"

/-! ### Helper lemmas -/

/-- An allow-list of strings, as the policy element list. -/
def strPolicy (l : List String) : List JsVal :=
  l.map JsVal.str

@[simp]
theorem toKey_str (s : String) : toKey (JsVal.str s) = s := rfl

/-- The single key predicate `filterHeaders` applies: pass the whitelist
stage (trivially when absent) and survive the (always-run) blacklist
stage. -/
def passesFilter (opts : Options) (k : String) : Bool :=
  (match opts.whitelistHeaders with
    | some ks => (ks.map toKey).contains k
    | none => true) &&
  !(omitPaths opts.blacklistHeaders).contains k

theorem filterHeaders_eq_filter (h : HeaderMap) (opts : Options) :
    filterHeaders h opts = h.filter (fun kv => passesFilter opts kv.1) := by
  unfold filterHeaders pick omitKeys passesFilter
  cases opts.whitelistHeaders <;>
    simp [List.filter_filter, Bool.and_comm]

theorem mem_keys_filterHeaders (h : HeaderMap) (opts : Options) (k : String) :
    k ∈ (filterHeaders h opts).keys ↔
      k ∈ h.keys ∧ passesFilter opts k = true := by
  rw [filterHeaders_eq_filter]
  unfold HeaderMap.keys
  constructor
  · intro hk
    rcases List.mem_map.mp hk with ⟨kv, hkv, rfl⟩
    rcases List.mem_filter.mp hkv with ⟨hmem, hpass⟩
    exact ⟨List.mem_map.mpr ⟨kv, hmem, rfl⟩, hpass⟩
  · rintro ⟨hk, hpass⟩
    rcases List.mem_map.mp hk with ⟨kv, hkv, rfl⟩
    exact List.mem_map.mpr ⟨kv, List.mem_filter.mpr ⟨hkv, hpass⟩, rfl⟩

/-! ### Claims -/

/-- C1 counterexample: the claim says that with both lists absent every
key of `H` survives, but the program always calls
`omit(whitelisted, blacklistHeaders)`, and `omit(H, undefined)` deletes
the key literally named `"undefined"`: at `H = {undefined: "v"}` the key
`"undefined"` is in `H` yet not in the filter's result. -/
theorem filterHeaders_allow_deny_counterexample :
    "undefined" ∈ HeaderMap.keys [("undefined", "v")] ∧
    "undefined" ∉ (filterHeaders [("undefined", "v")]
      { whitelistHeaders := none, blacklistHeaders := none }).keys := by
  decide

/-- C1 (amended): for every header map `H` and policy with optional
allow-list `A` and optional deny-list `D`, `filterHeaders` returns a map
containing exactly the keys of `H` that are in `A` (or all keys of `H`
when `A` is absent) minus every key in `D`; in particular a key in both
`A` and `D` is excluded (deny wins) — except that when `D` is absent the
key literally named `"undefined"` is also removed (lodash `omit` is
called unconditionally and coerces the `undefined` deny-list to the
single path `"undefined"`). -/
theorem filterHeaders_allow_deny (h : HeaderMap) (A D : Option (List String))
    (k : String) :
    k ∈ (filterHeaders h { whitelistHeaders := A.map strPolicy,
                           blacklistHeaders := D.map strPolicy }).keys ↔
      k ∈ h.keys ∧ (∀ a, A = some a → k ∈ a) ∧
        (∀ d, D = some d → k ∉ d) ∧ (D = none → k ≠ "undefined") := by
  rw [mem_keys_filterHeaders]
  cases A <;> cases D <;>
    simp [passesFilter, omitPaths, strPolicy, List.map_map,
      Function.comp_def, and_assoc]

/-- C2: the header filter is idempotent: filtering an already-filtered map
with the same policy changes nothing. -/
theorem filterHeaders_idempotent (h : HeaderMap) (opts : Options) :
    filterHeaders (filterHeaders h opts) opts = filterHeaders h opts := by
  simp only [filterHeaders_eq_filter]
  rw [List.filter_filter]
  simp

/-- C3: the header filter never mutates its input: in the object-store
embedding, `pick` and `omit` only allocate fresh result objects, so every
object that existed before the call — the input header map included —
still reads back unchanged afterwards. -/
theorem filterHeadersS_no_mutation (s : Store) (r : Nat) (opts : Options)
    (i : Nat) (hi : i < s.length) :
    ((filterHeadersS s r opts).1)[i]? = s[i]? := by
  unfold filterHeadersS pickS omitS
  cases opts.whitelistHeaders with
  | none => exact List.getElem?_append_left hi
  | some ks =>
    refine (List.getElem?_append_left ?_).trans (List.getElem?_append_left hi)
    simp only [List.length_append, List.length_cons, List.length_nil]
    omega

/-- C3 witness: a concrete store with one header-map object; after a
filter call that empties the filtered copy, the original object is
unchanged. -/
theorem filterHeadersS_no_mutation_witness :
    ((filterHeadersS [[("host", "a.com")]] 0
        { blacklistHeaders := some [JsVal.str "host"] }).1)[0]? =
      some [("host", "a.com")] := by
  have h := filterHeadersS_no_mutation [[("host", "a.com")]] 0
    { blacklistHeaders := some [JsVal.str "host"] } 0 (by decide)
  simpa using h

/-- C4: `formatRequest` resolves `url` as `request.url || request.path`:
when `url` is absent or falsy (the empty string) it falls back to
`request.path`, and a present truthy `url` is used as is. -/
theorem formatRequest_url_fallback (r : RequestLike) (opts : Options) :
    ((r.url = none ∨ r.url = some "") → (formatRequest r opts).url = r.path) ∧
    (∀ s, r.url = some s → s ≠ "" → (formatRequest r opts).url = some s) := by
  constructor
  · rintro (h | h) <;> simp [formatRequest, jsOrString, h]
  · intro s hs hne
    simp [formatRequest, jsOrString, hs, hne]

/-- C4 witness: a request with `path = "/x"` and no `url` attribute yields
`url = "/x"`. -/
theorem formatRequest_url_fallback_witness :
    (formatRequest { path := some "/x" } {}).url = some "/x" :=
  (formatRequest_url_fallback { path := some "/x" } {}).1 (Or.inl rfl)

/-- C5: `formatRequest` resolves the raw headers as
`request.headers || request._headers || {}` and passes them through
`filterHeaders`; an absent policy filters nothing from a map without a
key literally named `"undefined"` (the one key the unconditional
`omit(h, undefined)` call removes). -/
theorem formatRequest_headers_fallback (r : RequestLike) (opts : Options) :
    (∀ h, r.headers = some h →
      (formatRequest r opts).headers = filterHeaders h opts) ∧
    (r.headers = none → ∀ h, r._headers = some h →
      (formatRequest r opts).headers = filterHeaders h opts) ∧
    (r.headers = none → r._headers = none →
      (formatRequest r opts).headers = filterHeaders [] opts) ∧
    (∀ h : HeaderMap, "undefined" ∉ h.keys → filterHeaders h {} = h) := by
  refine ⟨?_, ?_, ?_, ?_⟩
  · intro h hh
    simp [formatRequest, jsOrOpt, hh]
  · intro hh h hr
    simp [formatRequest, jsOrOpt, hh, hr]
  · intro hh hr
    simp [formatRequest, jsOrOpt, hh, hr]
  · intro h hk
    rw [filterHeaders_eq_filter]
    refine List.filter_eq_self.mpr ?_
    intro kv hkv
    have hne : kv.1 ≠ "undefined" :=
      fun he => hk (List.mem_map.mpr ⟨kv, hkv, he⟩)
    simp [passesFilter, omitPaths, hne]

/-- C5 witness: a request with no `headers` but internal raw headers
`{host: "a.com"}` and no policy yields headers `{host: "a.com"}`. -/
theorem formatRequest_headers_fallback_witness :
    (formatRequest { _headers := some [("host", "a.com")] } {}).headers =
      [("host", "a.com")] :=
  (formatRequest_headers_fallback { _headers := some [("host", "a.com")] }
    {}).2.1 rfl [("host", "a.com")] rfl

/-- C6: `stringifyRequest` renders exactly `"<method> <headers.host><url>"`,
looking up the literal, case-sensitive key `host` and applying no header
filtering; the scenario input yields `"GET example.com/path?foo=bar"`, and
a map holding only `Host` (capitalized) misses the lookup. -/
theorem stringifyRequest_format :
    (∀ (m u : String) (h : HeaderMap),
      stringifyRequest { method := some m, url := some u, headers := some h } =
        m ++ " " ++ jsToString (h.get? "host") ++ u) ∧
    stringifyRequest { method := some "GET", url := some "/path?foo=bar", headers := some [("host", "example.com")] } =
      "GET example.com/path?foo=bar" ∧
    stringifyRequest { method := some "GET", url := some "/path?foo=bar", headers := some [("Host", "example.com")] } =
      "GET undefined/path?foo=bar" :=
  ⟨fun _ _ _ => rfl, rfl, rfl⟩

/-- C7: a status code with no entry in the reason-phrase registry renders
as `"<code> (undefined)"` — no error is raised — while a registered code
such as 201 renders with its registry phrase, `"201 (Created)"`. -/
theorem stringifyResponse_status (c : Nat) (h : STATUS_CODES c = none) :
    stringifyResponse { statusCode := some c } = toString c ++ " (undefined)" ∧
    stringifyResponse { statusCode := some 201 } = "201 (Created)" := by
  refine ⟨?_, rfl⟩
  show toString c ++ " (" ++ jsToString (STATUS_CODES c) ++ ")" =
    toString c ++ " (undefined)"
  rw [h]
  rw [String.append_assoc, String.append_assoc]
  rfl

/-- C7 witness: status code 999 has no registry entry and renders as
`"999 (undefined)"`. -/
theorem stringifyResponse_status_witness :
    stringifyResponse { statusCode := some 999 } = "999 (undefined)" ∧
    stringifyResponse { statusCode := some 201 } = "201 (Created)" := by
  have h := stringifyResponse_status 999 rfl
  exact ⟨h.1.trans rfl, h.2⟩

/-- C8: a `null`/`undefined` request or response argument makes
normalization fail with a `TypeError` (the invalid-argument error kind)
rather than return a partially-garbage record: destructuring a property of
a non-object throws. -/
theorem format_null_fails (opts : Options) :
    formatRequestE none opts = .error .typeError ∧
    formatResponseE none opts = .error .typeError :=
  ⟨rfl, rfl⟩

/-- C9 counterexample: an allow-list holding the non-string element `3`
does not make filtering fail — `filterHeaders` succeeds, coercing `3` to
the key `"3"` and picking that header. -/
theorem filterHeadersE_nonstring_no_error :
    filterHeadersE [("3", "v")] { whitelistHeaders := some [JsVal.num 3] } =
      .ok [("3", "v")] := rfl

/-- C9 (amended): a policy list with non-string elements never fails at
filter time; every element is silently coerced to its string key
(`String(x)`), so filtering behaves exactly as with the coerced
string-valued policy and always succeeds. -/
theorem filterHeadersE_coerces (h : HeaderMap) (wl bl : Option (List JsVal)) :
    filterHeadersE h { whitelistHeaders := wl, blacklistHeaders := bl } =
      .ok (filterHeaders h
        { whitelistHeaders := wl.map (·.map (fun k => JsVal.str (toKey k))),
          blacklistHeaders := bl.map (·.map (fun k => JsVal.str (toKey k))) }) := by
  unfold filterHeadersE filterHeaders
  cases wl <;> cases bl <;>
    simp [omitPaths, List.map_map, Function.comp_def]

/-- C10: a request with no `headers` field at all defaults the map to
empty, so the missing `host` renders as the text `"undefined"`:
`stringifyRequest({method: "GET", url: "/x"})` is `"GET undefined/x"`. -/
theorem stringifyRequest_missing_headers :
    stringifyRequest { method := some "GET", url := some "/x" } =
      "GET undefined/x" := rfl
